import Mathlib

/-!
Shallow embedding of the this-or-that-machine firmware
(`run.py`, the voting pair viewer, and `switch-images.py`, the sequential
slideshow variant).  Python globals become fields of explicit state
records, the `random.randint` stream becomes an explicit `draws` function,
wall-clock times become rationals, and the externally observable side
effects of a code path (queue puts, vote HTTP calls, selection-flag
writes, sleeps, press announcements) become an explicit event list.
-/

/-- Loaded image surface: either a file successfully loaded by the
renderer or a placeholder surface with a message (the code paths in
`load_current_pair` that build a black surface with text). -/
inductive Img
  | fromFile (path : String)
  | placeholder (msg : String)
deriving DecidableEq, Repr

/-- Observable side effects of a code path, in program order:
queue puts (`command_queue.put("display")` / `put("next")`), the vote
HTTP call (`send_vote`), direct writes to the shared `selected_image`
global, `time.sleep` calls, and the `print("Button N pressed ...")`
announcement that marks an accepted press.  Informational debug prints
are not modelled. -/
inductive Ev
  | printPressed (n : ℕ)
  | setSelected (v : Option ℕ)
  | putDisplay
  | putNext
  | sendVote (pid : String) (option : ℕ)
  | sleepFor (t : ℚ)
deriving DecidableEq, Repr

/-- State of `run.py`: the module-level globals `current_pair_index`,
`image_pairs`, `current_images`, `recent_pairs_history`,
`selected_image`. -/
structure AppState where
  current_pair_index : ℕ
  image_pairs : List (String × String)
  current_images : List (Option Img)
  recent_pairs_history : List ℕ
  selected_image : Option ℕ
deriving DecidableEq, Repr

/-- State owned by the `monitor_buttons` thread in `run.py`:
`button1_previous`, `button2_previous`, `last_button_press_time`. -/
structure MonState where
  button1_previous : ℕ
  button2_previous : ℕ
  last_button_press_time : ℚ
deriving DecidableEq, Repr

/-- `MAX_HISTORY_SIZE = 5` in `run.py`. -/
def MAX_HISTORY_SIZE : ℕ := 5

/-- `debounce_time = 0.05` in `run.py`. -/
def debounce_time : ℚ := 1 / 20

/-- `os.path.basename`: the suffix of the path after the last slash,
computed over the character list. -/
def basename (p : String) : String :=
  String.mk (p.toList.foldl (fun acc c => if c = '/' then [] else acc ++ [c]) [])

/-- `get_pair_id` from `run.py`: `re.match` of the pattern
digits, underscore, `1` or `2`, `.jpg`, anchored at the start of the
filename, returning the digit group.  A longest-digit-prefix scan is
equivalent to the regex because a digit can never match the `_`
position. -/
def get_pair_id (filename : String) : Option String :=
  match filename.toList.takeWhile Char.isDigit,
        filename.toList.dropWhile Char.isDigit with
  | [], _ => none
  | ds, '_' :: c :: '.' :: 'j' :: 'p' :: 'g' :: _ =>
    if c = '1' ∨ c = '2' then some (String.mk ds) else none
  | _, _ => none

/-- The rejection-sampling loop shared by `next_pair` and
`previous_pair` in `run.py`:

    while (new_index == current_pair_index or new_index in recent_pairs_history)
          and attempts < max_attempts:
        new_index = random.randint(0, len(image_pairs) - 1)
        attempts += 1

`fuel` is `max_attempts - attempts`; `draws i` is the value returned by
the `(i+1)`-th call to `random.randint`. -/
def pickGo (cur : ℕ) (hist : List ℕ) (draws : ℕ → ℕ) :
    ℕ → ℕ → ℕ → ℕ
  | n, _, 0 => n
  | n, a, fuel + 1 =>
    if n = cur ∨ n ∈ hist then pickGo cur hist draws (draws a) (a + 1) fuel
    else n

/-- `next_pair` from `run.py` (lines 271-296): on an empty collection
return immediately; otherwise free the current images, run the draw
loop with budget `len(image_pairs) * 2`, push the previous cursor onto
the history (popping the oldest entry once the length exceeds
`MAX_HISTORY_SIZE`), set the cursor, and enqueue `"display"`. -/
def next_pair (s : AppState) (draws : ℕ → ℕ) : AppState × List Ev :=
  if s.image_pairs = [] then (s, [])
  else
    let new_index := pickGo s.current_pair_index s.recent_pairs_history draws
      s.current_pair_index 0 (s.image_pairs.length * 2)
    let hist1 := s.recent_pairs_history ++ [s.current_pair_index]
    let hist2 := if MAX_HISTORY_SIZE < hist1.length then hist1.drop 1 else hist1
    ({ s with current_images := [none, none],
              current_pair_index := new_index,
              recent_pairs_history := hist2 }, [Ev.putDisplay])

/-- `previous_pair` from `run.py` (lines 298-323); its body is
line-for-line the same as `next_pair`. -/
def previous_pair (s : AppState) (draws : ℕ → ℕ) : AppState × List Ev :=
  if s.image_pairs = [] then (s, [])
  else
    let new_index := pickGo s.current_pair_index s.recent_pairs_history draws
      s.current_pair_index 0 (s.image_pairs.length * 2)
    let hist1 := s.recent_pairs_history ++ [s.current_pair_index]
    let hist2 := if MAX_HISTORY_SIZE < hist1.length then hist1.drop 1 else hist1
    ({ s with current_images := [none, none],
              current_pair_index := new_index,
              recent_pairs_history := hist2 }, [Ev.putDisplay])

/-- The guarded vote block inside `monitor_buttons` (`run.py`
lines 452-455 and 479-482), which realises the spec's `record_vote`
operation: only if the collection is non-empty and the cursor is in
range, extract the pair id of the left image's basename and send the
vote. -/
def record_vote (s : AppState) (option : ℕ) : List Ev :=
  if s.image_pairs ≠ [] ∧ s.current_pair_index < s.image_pairs.length then
    match get_pair_id (basename (s.image_pairs.getD s.current_pair_index ("", "")).1) with
    | some pid => [Ev.sendVote pid option]
    | none => []
  else []

/-- Accepted-press handler for button 1 (`run.py` lines 444-468):
select the right image, enqueue a redraw, send the vote for option 1,
sleep 0.5 s, enqueue `"next"`, clear the selection, enqueue a redraw.
Returns the shared state after the handler and its event trace. -/
def button1_branch (s : AppState) : AppState × List Ev :=
  ({ s with selected_image := none },
    [Ev.printPressed 1, Ev.setSelected (some 1), Ev.putDisplay] ++ record_vote s 1 ++
    [Ev.sleepFor (1 / 2), Ev.putNext, Ev.setSelected none, Ev.putDisplay])

/-- Accepted-press handler for button 2 (`run.py` lines 471-495):
select the left image (index 0) and vote for option 2; otherwise
identical in shape to `button1_branch`. -/
def button2_branch (s : AppState) : AppState × List Ev :=
  ({ s with selected_image := none },
    [Ev.printPressed 2, Ev.setSelected (some 0), Ev.putDisplay] ++ record_vote s 2 ++
    [Ev.sleepFor (1 / 2), Ev.putNext, Ev.setSelected none, Ev.putDisplay])

/-- One iteration of the `monitor_buttons` polling loop in `run.py`
(lines 434-502): sample both buttons (`b1`, `b2`) at time `t`, run the
debounce gate once, then check each channel's 0→1 transition in order
(both checks sit inside the single debounce `if`), update
`button1_previous` / `button2_previous` and sleep 0.01 s. -/
def monitorStep (s : AppState) (m : MonState) (b1 b2 : ℕ) (t : ℚ) :
    AppState × MonState × List Ev :=
  if debounce_time ≤ t - m.last_button_press_time then
    if b1 = 1 ∧ m.button1_previous = 0 then
      let p1 := button1_branch s
      if b2 = 1 ∧ m.button2_previous = 0 then
        let p2 := button2_branch p1.1
        (p2.1, ⟨b1, b2, t⟩, p1.2 ++ p2.2 ++ [Ev.sleepFor (1 / 100)])
      else
        (p1.1, ⟨b1, b2, t⟩, p1.2 ++ [Ev.sleepFor (1 / 100)])
    else
      if b2 = 1 ∧ m.button2_previous = 0 then
        let p2 := button2_branch s
        (p2.1, ⟨b1, b2, t⟩, p2.2 ++ [Ev.sleepFor (1 / 100)])
      else
        (s, ⟨b1, b2, m.last_button_press_time⟩, [Ev.sleepFor (1 / 100)])
  else
    (s, ⟨b1, b2, m.last_button_press_time⟩, [Ev.sleepFor (1 / 100)])

/-- Run the monitor loop over a finite list of samples
`(button1, button2, time)`, concatenating the event traces. -/
def monitorRun (s : AppState) (m : MonState) :
    List (ℕ × ℕ × ℚ) → AppState × MonState × List Ev
  | [] => (s, m, [])
  | (b1, b2, t) :: rest =>
    let r1 := monitorStep s m b1 b2 t
    let r2 := monitorRun r1.1 r1.2.1 rest
    (r2.1, r2.2.1, r1.2.2 ++ r2.2.2)

/-- Number of accepted presses of channel `n` in a trace, identified by
the `print("Button n pressed ...")` announcement the source emits at
the head of each accepted-press branch. -/
def countPressed (n : ℕ) (evs : List Ev) : ℕ :=
  evs.countP fun e =>
    match e with
    | Ev.printPressed k => k == n
    | _ => false

/-- `load_current_pair` from `run.py` (lines 154-193), at the state
level: empty collection gives placeholder surfaces, an out-of-range
cursor takes the exception path and gives error surfaces, and otherwise
both images of the current pair are loaded. -/
def load_current_pair (s : AppState) : AppState :=
  if s.image_pairs = [] then
    { s with current_images :=
        [some (Img.placeholder "No image pairs found"),
         some (Img.placeholder "No image pairs found")] }
  else
    match s.image_pairs.get? s.current_pair_index with
    | some pr =>
      { s with current_images := [some (Img.fromFile pr.1), some (Img.fromFile pr.2)] }
    | none =>
      { s with current_images :=
          [some (Img.placeholder "Error loading image 1"),
           some (Img.placeholder "Error loading image 2")] }

/-- `display_current_pair` from `run.py` (lines 195-269), at the state
level: reload lazily if either slot is empty, then draw (drawing
changes no state and enqueues nothing). -/
def display_current_pair (s : AppState) : AppState :=
  if s.current_images.getD 0 none = none ∨ s.current_images.getD 1 none = none then
    load_current_pair s
  else s

/-- The dispatcher's handling of a `"display"` command (`run.py` main
loop lines 617-619): `load_current_pair()` then
`display_current_pair()`. -/
def display_dispatch (s : AppState) : AppState :=
  display_current_pair (load_current_pair s)

/-- `sync_and_reload` from `run.py` (lines 416-426).  The filesystem
scan plus shuffle performed by `organize_image_pairs` is an external
input, passed as `newPairs`; the function then sets
`current_pair_index = 0` and redisplays.  Note the source touches
neither `recent_pairs_history` nor `selected_image`. -/
def sync_and_reload (s : AppState) (newPairs : List (String × String)) : AppState :=
  display_current_pair (load_current_pair
    { s with image_pairs := newPairs, current_pair_index := 0 })

/-- State of `switch-images.py`: `current_image_index`, `image_paths`,
`current_image`.  The index is an integer because the source relies on
Python's non-negative `%` on a negative numerator. -/
structure SwitchState where
  current_image_index : ℤ
  image_paths : List String
  current_image : Option Img
deriving DecidableEq, Repr

/-- `next_image` from `switch-images.py` (lines 151-162):
`(index + 1) % len(image_paths)` and enqueue `"display"`; no-op on an
empty list. -/
def next_image (s : SwitchState) : SwitchState × List Ev :=
  if s.image_paths = [] then (s, [])
  else
    ({ s with current_image := none,
              current_image_index :=
                (s.current_image_index + 1) % (s.image_paths.length : ℤ) },
      [Ev.putDisplay])

/-- `previous_image` from `switch-images.py` (lines 164-175):
`(index - 1) % len(image_paths)` and enqueue `"display"`; no-op on an
empty list. -/
def previous_image (s : SwitchState) : SwitchState × List Ev :=
  if s.image_paths = [] then (s, [])
  else
    ({ s with current_image := none,
              current_image_index :=
                (s.current_image_index - 1) % (s.image_paths.length : ℤ) },
      [Ev.putDisplay])


/-- Unfolding equation of the draw loop at zero remaining budget. -/
lemma pickGo_zero (cur : ℕ) (hist : List ℕ) (draws : ℕ → ℕ) (n a : ℕ) :
    pickGo cur hist draws n a 0 = n := rfl

/-- Unfolding equation of the draw loop with remaining budget. -/
lemma pickGo_succ (cur : ℕ) (hist : List ℕ) (draws : ℕ → ℕ) (n a fuel : ℕ) :
    pickGo cur hist draws n a (fuel + 1) =
      if n = cur ∨ n ∈ hist then pickGo cur hist draws (draws a) (a + 1) fuel
      else n := rfl

/-- A qualifying starting value is returned unchanged by the draw loop. -/
lemma pickGo_of_qualifying (cur : ℕ) (hist : List ℕ) (draws : ℕ → ℕ)
    (fuel n a : ℕ) (h : ¬(n = cur ∨ n ∈ hist)) :
    pickGo cur hist draws n a fuel = n := by
  cases fuel with
  | zero => rfl
  | succ fuel => rw [pickGo_succ, if_neg h]

/-- Core invariant of the draw loop: the returned index qualifies, or
every draw consulted during the remaining budget was rejected. -/
lemma pickGo_spec (cur : ℕ) (hist : List ℕ) (draws : ℕ → ℕ) :
    ∀ fuel n a, ¬(pickGo cur hist draws n a fuel = cur ∨
                  pickGo cur hist draws n a fuel ∈ hist) ∨
      ∀ i, a ≤ i → i < a + fuel → (draws i = cur ∨ draws i ∈ hist) := by
  intro fuel
  induction fuel with
  | zero =>
    intro n a
    exact Or.inr fun i h1 h2 => absurd h2 (by omega)
  | succ fuel ih =>
    intro n a
    by_cases hn : n = cur ∨ n ∈ hist
    · rw [pickGo_succ, if_pos hn]
      by_cases hda : draws a = cur ∨ draws a ∈ hist
      · rcases ih (draws a) (a + 1) with hgood | hall
        · exact Or.inl hgood
        · refine Or.inr fun i h1 h2 => ?_
          rcases Nat.eq_or_lt_of_le h1 with h1 | h1
          · rwa [← h1]
          · exact hall i (by omega) (by omega)
      · rw [pickGo_of_qualifying cur hist draws fuel (draws a) (a + 1) hda]
        exact Or.inl hda
    · rw [pickGo_of_qualifying cur hist draws (fuel + 1) n a hn]
      exact Or.inl hn

/-- The draw loop consults only the draws inside its remaining budget. -/
lemma pickGo_congr (cur : ℕ) (hist : List ℕ) :
    ∀ (fuel n a : ℕ) (draws draws' : ℕ → ℕ),
      (∀ i, a ≤ i → i < a + fuel → draws i = draws' i) →
      pickGo cur hist draws n a fuel = pickGo cur hist draws' n a fuel := by
  intro fuel
  induction fuel with
  | zero => intro n a draws draws' _; rfl
  | succ fuel ih =>
    intro n a draws draws' h
    rw [pickGo_succ, pickGo_succ]
    by_cases hn : n = cur ∨ n ∈ hist
    · rw [if_pos hn, if_pos hn, h a (le_refl a) (by omega)]
      exact ih (draws' a) (a + 1) draws draws' fun i h1 h2 => h i (by omega) (by omega)
    · rw [if_neg hn, if_neg hn]

/-- Unfolding of `next_pair` on a non-empty collection. -/
lemma next_pair_nonempty (s : AppState) (draws : ℕ → ℕ) (h : s.image_pairs ≠ []) :
    next_pair s draws =
      ({ s with current_images := [none, none],
                current_pair_index :=
                  pickGo s.current_pair_index s.recent_pairs_history draws
                    s.current_pair_index 0 (s.image_pairs.length * 2),
                recent_pairs_history :=
                  if MAX_HISTORY_SIZE < (s.recent_pairs_history ++ [s.current_pair_index]).length
                  then (s.recent_pairs_history ++ [s.current_pair_index]).drop 1
                  else s.recent_pairs_history ++ [s.current_pair_index] },
        [Ev.putDisplay]) := by
  unfold next_pair
  rw [if_neg h]

/-- C1 counterexample input: a collection of 7 pairs, so
`N = 7 > K + 1 = 6`, at cursor 0 with empty history. -/
def stateSeven : AppState :=
  ⟨0, [("a1", "a2"), ("b1", "b2"), ("c1", "c2"), ("d1", "d2"),
       ("e1", "e2"), ("f1", "f2"), ("g1", "g2")], [none, none], [], none⟩

/-- C1: counterexample.  With `N = 7 > K + 1` and a draw stream that
returns the current cursor on every one of the `2N = 14` attempts, the
draw loop exhausts its budget and `next_pair` sets the cursor to the
immediately-preceding cursor value, which the claim says can happen
only when `N ≤ K + 1`. -/
theorem next_pair_repeats_despite_large_collection :
    MAX_HISTORY_SIZE + 1 < stateSeven.image_pairs.length ∧
    (next_pair stateSeven (fun _ => 0)).1.current_pair_index =
      stateSeven.current_pair_index := by
  decide

/-- C1 (amended): for every non-empty collection, the accepted index
differs from the preceding cursor and from the recent history unless
every one of the `2N` budgeted draws was rejected (equal to the cursor
or in history) — budget exhaustion is unavoidable when `N ≤ K + 1`
but possible for any `N`; and the draw loop never consults more than
`2N` draws. -/
theorem next_pair_no_repeat_unless_budget_exhausted (s : AppState)
    (draws draws' : ℕ → ℕ) (h : s.image_pairs ≠ []) :
    (((next_pair s draws).1.current_pair_index ≠ s.current_pair_index ∧
      (next_pair s draws).1.current_pair_index ∉ s.recent_pairs_history) ∨
     (∀ i, i < s.image_pairs.length * 2 →
        draws i = s.current_pair_index ∨ draws i ∈ s.recent_pairs_history)) ∧
    ((∀ i, i < s.image_pairs.length * 2 → draws i = draws' i) →
      (next_pair s draws).1.current_pair_index =
        (next_pair s draws').1.current_pair_index) := by
  constructor
  · rw [next_pair_nonempty s draws h]
    rcases pickGo_spec s.current_pair_index s.recent_pairs_history draws
      (s.image_pairs.length * 2) s.current_pair_index 0 with hgood | hall
    · left
      push_neg at hgood
      exact hgood
    · right
      intro i hi
      exact hall i (Nat.zero_le i) (by omega)
  · intro hagree
    rw [next_pair_nonempty s draws h, next_pair_nonempty s draws' h]
    simp only
    exact pickGo_congr s.current_pair_index s.recent_pairs_history
      (s.image_pairs.length * 2) s.current_pair_index 0 draws draws'
      (fun i _ h2 => hagree i (by omega))

/-- C1 witness state: three pairs, cursor 0, history [2]. -/
def stateThree : AppState :=
  ⟨0, [("p1", "p2"), ("q1", "q2"), ("r1", "r2")], [none, none], [2], none⟩

/-- C1 witness: the amended theorem applied at a concrete non-empty
collection and a concrete draw stream. -/
theorem next_pair_no_repeat_unless_budget_exhausted_witness :
    stateThree.image_pairs ≠ [] ∧
    ((((next_pair stateThree (fun _ => 1)).1.current_pair_index ≠
        stateThree.current_pair_index ∧
      (next_pair stateThree (fun _ => 1)).1.current_pair_index ∉
        stateThree.recent_pairs_history) ∨
     (∀ i, i < stateThree.image_pairs.length * 2 →
        (fun _ => 1) i = stateThree.current_pair_index ∨
          (fun _ => 1) i ∈ stateThree.recent_pairs_history)) ∧
    ((∀ i, i < stateThree.image_pairs.length * 2 → (fun _ => 1) i = (fun _ => 1) i) →
      (next_pair stateThree (fun _ => 1)).1.current_pair_index =
        (next_pair stateThree (fun _ => 1)).1.current_pair_index)) :=
  ⟨by decide,
   next_pair_no_repeat_unless_budget_exhausted stateThree
     (fun _ => 1) (fun _ => 1) (by decide)⟩

/-- Pushing onto the bounded history and then popping the oldest entry
when over capacity is the same as dropping the oldest first when the
history is already full. -/
lemma push_evict_eq (L : List ℕ) (c : ℕ) :
    (if MAX_HISTORY_SIZE < (L ++ [c]).length then (L ++ [c]).drop 1 else L ++ [c]) =
      (if L.length < MAX_HISTORY_SIZE then L ++ [c] else L.drop 1 ++ [c]) := by
  cases L with
  | nil => simp [MAX_HISTORY_SIZE]
  | cons x xs =>
    by_cases hl : (x :: xs).length < MAX_HISTORY_SIZE
    · rw [if_pos hl, if_neg (by simp only [MAX_HISTORY_SIZE, List.length_append,
        List.length_cons, List.length_singleton, List.length_nil] at hl ⊢; omega)]
    · rw [if_neg hl, if_pos (by simp only [MAX_HISTORY_SIZE, List.length_append,
        List.length_cons, List.length_singleton, List.length_nil] at hl ⊢; omega)]
      simp

/-- C2 counterexample input: two pairs, cursor 0, selection flag set to
the right image. -/
def stateSel : AppState :=
  ⟨0, [("a1", "a2"), ("b1", "b2")], [none, none], [], some 1⟩

/-- C2: counterexample.  `next_pair` accepts a new index (the cursor
moves from 0 to 1) on a non-empty collection, yet the selection flag is
still `some 1` afterwards: the flag is not cleared by the advance
itself. -/
theorem next_pair_leaves_selection_flag_set :
    (next_pair stateSel (fun _ => 1)).1.current_pair_index ≠
      stateSel.current_pair_index ∧
    (next_pair stateSel (fun _ => 1)).1.selected_image = some 1 := by
  decide

/-- C2 (amended): on a non-empty collection `next_pair` pushes the
previous cursor onto the history (evicting the oldest entry once the
length exceeds `MAX_HISTORY_SIZE = 5`), sets the cursor to the index
accepted by the draw loop, and enqueues one `"display"` command — but
it leaves the selection flag unchanged; the flag is cleared separately
by the button handler after it enqueues the advance. -/
theorem next_pair_accept_effect (s : AppState) (draws : ℕ → ℕ)
    (h : s.image_pairs ≠ []) :
    (next_pair s draws).1.recent_pairs_history =
      (if s.recent_pairs_history.length < MAX_HISTORY_SIZE
       then s.recent_pairs_history ++ [s.current_pair_index]
       else s.recent_pairs_history.drop 1 ++ [s.current_pair_index]) ∧
    (next_pair s draws).1.current_pair_index =
      pickGo s.current_pair_index s.recent_pairs_history draws
        s.current_pair_index 0 (s.image_pairs.length * 2) ∧
    (next_pair s draws).1.selected_image = s.selected_image ∧
    (next_pair s draws).2 = [Ev.putDisplay] := by
  rw [next_pair_nonempty s draws h]
  exact ⟨push_evict_eq s.recent_pairs_history s.current_pair_index, rfl, rfl, rfl⟩

/-- C2 witness: the amended theorem applied at a concrete state. -/
theorem next_pair_accept_effect_witness :
    stateSel.image_pairs ≠ [] ∧
    ((next_pair stateSel (fun _ => 1)).1.recent_pairs_history =
      (if stateSel.recent_pairs_history.length < MAX_HISTORY_SIZE
       then stateSel.recent_pairs_history ++ [stateSel.current_pair_index]
       else stateSel.recent_pairs_history.drop 1 ++ [stateSel.current_pair_index]) ∧
    (next_pair stateSel (fun _ => 1)).1.current_pair_index =
      pickGo stateSel.current_pair_index stateSel.recent_pairs_history (fun _ => 1)
        stateSel.current_pair_index 0 (stateSel.image_pairs.length * 2) ∧
    (next_pair stateSel (fun _ => 1)).1.selected_image = stateSel.selected_image ∧
    (next_pair stateSel (fun _ => 1)).2 = [Ev.putDisplay]) :=
  ⟨by decide, next_pair_accept_effect stateSel (fun _ => 1) (by decide)⟩

/-- Loading images touches only `current_images`. -/
lemma load_current_pair_fields (s : AppState) :
    (load_current_pair s).image_pairs = s.image_pairs ∧
    (load_current_pair s).current_pair_index = s.current_pair_index ∧
    (load_current_pair s).recent_pairs_history = s.recent_pairs_history ∧
    (load_current_pair s).selected_image = s.selected_image := by
  unfold load_current_pair
  split
  · exact ⟨rfl, rfl, rfl, rfl⟩
  · split <;> exact ⟨rfl, rfl, rfl, rfl⟩

/-- Redrawing touches only `current_images`. -/
lemma display_current_pair_fields (s : AppState) :
    (display_current_pair s).image_pairs = s.image_pairs ∧
    (display_current_pair s).current_pair_index = s.current_pair_index ∧
    (display_current_pair s).recent_pairs_history = s.recent_pairs_history ∧
    (display_current_pair s).selected_image = s.selected_image := by
  unfold display_current_pair
  split
  · exact load_current_pair_fields s
  · exact ⟨rfl, rfl, rfl, rfl⟩

/-- Dispatching a `"display"` command touches only `current_images`. -/
lemma display_dispatch_fields (s : AppState) :
    (display_dispatch s).image_pairs = s.image_pairs ∧
    (display_dispatch s).current_pair_index = s.current_pair_index ∧
    (display_dispatch s).recent_pairs_history = s.recent_pairs_history ∧
    (display_dispatch s).selected_image = s.selected_image := by
  unfold display_dispatch
  obtain ⟨a1, a2, a3, a4⟩ := display_current_pair_fields (load_current_pair s)
  obtain ⟨b1, b2, b3, b4⟩ := load_current_pair_fields s
  exact ⟨a1.trans b1, a2.trans b2, a3.trans b3, a4.trans b4⟩

/-- C6 counterexample input: a state carrying pre-reload history `[2]`
and a set selection flag. -/
def stateReload : AppState := ⟨1, [("a", "b")], [none, none], [2], some 1⟩

/-- New collection handed to the reload in the C6 counterexample. -/
def reloadPairs : List (String × String) := [("x1", "x2"), ("y1", "y2"), ("z1", "z2")]

/-- C6: counterexample.  After `sync_and_reload` the pre-reload history
`[2]` is still there and the selection flag is still set; moreover a
subsequent `next_pair` whose first draw is 2 rejects that draw because
of the pre-reload history and accepts the second draw 1 instead. -/
theorem sync_and_reload_keeps_history :
    (sync_and_reload stateReload reloadPairs).recent_pairs_history ≠ [] ∧
    (sync_and_reload stateReload reloadPairs).selected_image ≠ none ∧
    (next_pair (sync_and_reload stateReload reloadPairs)
        (fun i => if i = 0 then 2 else 1)).1.current_pair_index = 1 := by
  decide

/-- C6 (amended): `sync_and_reload` replaces the collection with the
freshly scanned one and deterministically resets the cursor to 0 (not
to a random index), and it leaves both the recent history and the
selection flag unchanged, so a subsequent advance can still reject
draws based on pre-reload history. -/
theorem sync_and_reload_effect (s : AppState) (newPairs : List (String × String)) :
    (sync_and_reload s newPairs).image_pairs = newPairs ∧
    (sync_and_reload s newPairs).current_pair_index = 0 ∧
    (sync_and_reload s newPairs).recent_pairs_history = s.recent_pairs_history ∧
    (sync_and_reload s newPairs).selected_image = s.selected_image := by
  unfold sync_and_reload
  obtain ⟨a1, a2, a3, a4⟩ := display_current_pair_fields
    (load_current_pair { s with image_pairs := newPairs, current_pair_index := 0 })
  obtain ⟨b1, b2, b3, b4⟩ := load_current_pair_fields
    { s with image_pairs := newPairs, current_pair_index := 0 }
  exact ⟨(a1.trans b1).trans rfl, (a2.trans b2).trans rfl,
         (a3.trans b3).trans rfl, (a4.trans b4).trans rfl⟩

/-- C7 input: the empty-collection state. -/
def stateEmpty : AppState := ⟨0, [], [none, none], [], none⟩

/-- C7: on an empty collection, `next_pair` and `previous_pair` change
nothing and enqueue nothing, the guarded vote block sends no vote, and
dispatching a `"display"` command leaves the cursor, collection,
history and selection flag untouched (it only installs placeholder
surfaces) and enqueues nothing. -/
theorem empty_collection_noops (s : AppState) (draws : ℕ → ℕ)
    (h : s.image_pairs = []) :
    next_pair s draws = (s, []) ∧
    previous_pair s draws = (s, []) ∧
    record_vote s 1 = [] ∧
    record_vote s 2 = [] ∧
    (display_dispatch s).current_pair_index = s.current_pair_index ∧
    (display_dispatch s).image_pairs = s.image_pairs ∧
    (display_dispatch s).recent_pairs_history = s.recent_pairs_history ∧
    (display_dispatch s).selected_image = s.selected_image := by
  obtain ⟨d1, d2, d3, d4⟩ := display_dispatch_fields s
  refine ⟨?_, ?_, ?_, ?_, d2, d1, d3, d4⟩
  · unfold next_pair; rw [if_pos h]
  · unfold previous_pair; rw [if_pos h]
  · unfold record_vote; rw [if_neg (by simp [h])]
  · unfold record_vote; rw [if_neg (by simp [h])]

/-- C7 witness: the theorem applied at the concrete empty state. -/
theorem empty_collection_noops_witness :
    stateEmpty.image_pairs = [] ∧
    (next_pair stateEmpty (fun _ => 0) = (stateEmpty, []) ∧
    previous_pair stateEmpty (fun _ => 0) = (stateEmpty, []) ∧
    record_vote stateEmpty 1 = [] ∧
    record_vote stateEmpty 2 = [] ∧
    (display_dispatch stateEmpty).current_pair_index = stateEmpty.current_pair_index ∧
    (display_dispatch stateEmpty).image_pairs = stateEmpty.image_pairs ∧
    (display_dispatch stateEmpty).recent_pairs_history = stateEmpty.recent_pairs_history ∧
    (display_dispatch stateEmpty).selected_image = stateEmpty.selected_image) :=
  ⟨rfl, empty_collection_noops stateEmpty (fun _ => 0) rfl⟩

/-- C9: in the sequential variant, on a non-empty list and a valid old
index, `next_image` sets the index to `(old + 1) mod N` and
`previous_image` to `(old - 1) mod N` (Python's `%`, i.e. the
non-negative Euclidean remainder), both results are again valid
indices, and each enqueues one `"display"` command. -/
theorem sequential_wraparound (s : SwitchState) (h : s.image_paths ≠ [])
    (_h0 : 0 ≤ s.current_image_index)
    (_hlt : s.current_image_index < (s.image_paths.length : ℤ)) :
    (next_image s).1.current_image_index =
      (s.current_image_index + 1) % (s.image_paths.length : ℤ) ∧
    (previous_image s).1.current_image_index =
      (s.current_image_index - 1) % (s.image_paths.length : ℤ) ∧
    0 ≤ (next_image s).1.current_image_index ∧
    (next_image s).1.current_image_index < (s.image_paths.length : ℤ) ∧
    0 ≤ (previous_image s).1.current_image_index ∧
    (previous_image s).1.current_image_index < (s.image_paths.length : ℤ) ∧
    (next_image s).2 = [Ev.putDisplay] ∧
    (previous_image s).2 = [Ev.putDisplay] := by
  have hN : (0 : ℤ) < (s.image_paths.length : ℤ) := by
    exact_mod_cast List.length_pos.mpr h
  unfold next_image previous_image
  rw [if_neg h, if_neg h]
  exact ⟨rfl, rfl,
    Int.emod_nonneg _ (ne_of_gt hN), Int.emod_lt_of_pos _ hN,
    Int.emod_nonneg _ (ne_of_gt hN), Int.emod_lt_of_pos _ hN,
    rfl, rfl⟩

/-- C9 witness input: a three-image slideshow at index 0. -/
def slideThree : SwitchState := ⟨0, ["a", "b", "c"], none⟩

/-- C9 witness: the theorem applied at the concrete slideshow state. -/
theorem sequential_wraparound_witness :
    slideThree.image_paths ≠ [] ∧
    ((next_image slideThree).1.current_image_index =
      (slideThree.current_image_index + 1) % (slideThree.image_paths.length : ℤ) ∧
    (previous_image slideThree).1.current_image_index =
      (slideThree.current_image_index - 1) % (slideThree.image_paths.length : ℤ) ∧
    0 ≤ (next_image slideThree).1.current_image_index ∧
    (next_image slideThree).1.current_image_index < (slideThree.image_paths.length : ℤ) ∧
    0 ≤ (previous_image slideThree).1.current_image_index ∧
    (previous_image slideThree).1.current_image_index < (slideThree.image_paths.length : ℤ) ∧
    (next_image slideThree).2 = [Ev.putDisplay] ∧
    (previous_image slideThree).2 = [Ev.putDisplay]) :=
  ⟨by decide, sequential_wraparound slideThree (by decide) (by decide) (by decide)⟩

/-- C10: the random-no-repeat advance is direction-blind:
`next_pair` and `previous_pair` are extensionally the same function —
for every starting state and every draw stream they produce the same
resulting state (cursor, history, images, flag) and the same enqueued
commands. -/
theorem next_pair_eq_previous_pair :
    ∀ (s : AppState) (draws : ℕ → ℕ), next_pair s draws = previous_pair s draws :=
  fun _ _ => rfl

/-- The press counter distributes over trace concatenation. -/
lemma countPressed_append (n : ℕ) (l1 l2 : List Ev) :
    countPressed n (l1 ++ l2) = countPressed n l1 + countPressed n l2 := by
  simp [countPressed, List.countP_append]

/-- The press counter on the empty trace. -/
lemma countPressed_nil (n : ℕ) : countPressed n [] = 0 := rfl

/-- The press counter on a lone sleep event. -/
lemma countPressed_sleep (n : ℕ) (q : ℚ) : countPressed n [Ev.sleepFor q] = 0 := rfl

/-- The guarded vote block emits either nothing or exactly one vote. -/
lemma record_vote_eq (s : AppState) (o : ℕ) :
    record_vote s o = [] ∨ ∃ pid, record_vote s o = [Ev.sendVote pid o] := by
  unfold record_vote
  split
  · split
    · exact Or.inr ⟨_, rfl⟩
    · exact Or.inl rfl
  · exact Or.inl rfl

/-- The guarded vote block contains no press announcement. -/
lemma countPressed_record_vote (n : ℕ) (s : AppState) (o : ℕ) :
    countPressed n (record_vote s o) = 0 := by
  rcases record_vote_eq s o with h | ⟨pid, h⟩ <;>
    simp [h, countPressed, List.countP_cons, List.countP_nil]

/-- The button-1 handler announces exactly one press of channel 1. -/
lemma countPressed_one_button1 (s : AppState) :
    countPressed 1 (button1_branch s).2 = 1 := by
  have h : (button1_branch s).2 =
      [Ev.printPressed 1, Ev.setSelected (some 1), Ev.putDisplay] ++ record_vote s 1 ++
      [Ev.sleepFor (1 / 2), Ev.putNext, Ev.setSelected none, Ev.putDisplay] := rfl
  rw [h, countPressed_append, countPressed_append, countPressed_record_vote]
  rfl

/-- The button-1 handler announces no press of channel 2. -/
lemma countPressed_two_button1 (s : AppState) :
    countPressed 2 (button1_branch s).2 = 0 := by
  have h : (button1_branch s).2 =
      [Ev.printPressed 1, Ev.setSelected (some 1), Ev.putDisplay] ++ record_vote s 1 ++
      [Ev.sleepFor (1 / 2), Ev.putNext, Ev.setSelected none, Ev.putDisplay] := rfl
  rw [h, countPressed_append, countPressed_append, countPressed_record_vote]
  rfl

/-- The button-2 handler announces no press of channel 1. -/
lemma countPressed_one_button2 (s : AppState) :
    countPressed 1 (button2_branch s).2 = 0 := by
  have h : (button2_branch s).2 =
      [Ev.printPressed 2, Ev.setSelected (some 0), Ev.putDisplay] ++ record_vote s 2 ++
      [Ev.sleepFor (1 / 2), Ev.putNext, Ev.setSelected none, Ev.putDisplay] := rfl
  rw [h, countPressed_append, countPressed_append, countPressed_record_vote]
  rfl

/-- The button-2 handler announces exactly one press of channel 2. -/
lemma countPressed_two_button2 (s : AppState) :
    countPressed 2 (button2_branch s).2 = 1 := by
  have h : (button2_branch s).2 =
      [Ev.printPressed 2, Ev.setSelected (some 0), Ev.putDisplay] ++ record_vote s 2 ++
      [Ev.sleepFor (1 / 2), Ev.putNext, Ev.setSelected none, Ev.putDisplay] := rfl
  rw [h, countPressed_append, countPressed_append, countPressed_record_vote]
  rfl

/-- A tick with a clean 0→1 transition on channel 1 only, outside the
debounce window, runs exactly the button-1 handler and stamps the
shared debounce timestamp. -/
lemma monitorStep_press1 (s : AppState) (m : MonState) (t : ℚ)
    (hdeb : debounce_time ≤ t - m.last_button_press_time)
    (hb : m.button1_previous = 0) :
    monitorStep s m 1 0 t =
      ((button1_branch s).1, ⟨1, 0, t⟩,
        (button1_branch s).2 ++ [Ev.sleepFor (1 / 100)]) := by
  simp [monitorStep, hdeb, hb]

/-- A tick with clean 0→1 transitions on both channels, outside the
debounce window, runs the button-1 handler and then the button-2
handler in the same iteration. -/
lemma monitorStep_press_both (s : AppState) (m : MonState) (t : ℚ)
    (hdeb : debounce_time ≤ t - m.last_button_press_time)
    (hb1 : m.button1_previous = 0) (hb2 : m.button2_previous = 0) :
    monitorStep s m 1 1 t =
      ((button2_branch (button1_branch s).1).1, ⟨1, 1, t⟩,
        (button1_branch s).2 ++ (button2_branch (button1_branch s).1).2 ++
          [Ev.sleepFor (1 / 100)]) := by
  simp [monitorStep, hdeb, hb1, hb2]

/-- A tick sampling both channels at 0 accepts nothing and leaves the
debounce timestamp alone. -/
lemma monitorStep_idle (s : AppState) (m : MonState) (t : ℚ) :
    monitorStep s m 0 0 t =
      (s, ⟨0, 0, m.last_button_press_time⟩, [Ev.sleepFor (1 / 100)]) := by
  unfold monitorStep
  split <;> simp

/-- A tick inside the debounce window accepts nothing, whatever the
sampled values, and only updates the previous-sample state. -/
lemma monitorStep_suppressed (s : AppState) (m : MonState) (b1 b2 : ℕ) (t : ℚ)
    (hdeb : ¬ debounce_time ≤ t - m.last_button_press_time) :
    monitorStep s m b1 b2 t =
      (s, ⟨b1, b2, m.last_button_press_time⟩, [Ev.sleepFor (1 / 100)]) := by
  unfold monitorStep
  rw [if_neg hdeb]

/-- C3 counterexample input: selection flag currently `some 0`. -/
def stateFlag : AppState := ⟨0, [], [none, none], [], some 0⟩

/-- C3: counterexample.  One iteration of the edge-detector loop with
an accepted press on channel 1 changes the shared selection flag (from
`some 0` to `none`, having transiently set it to `some 1` in between):
the flag is mutable state shared with the dispatcher beyond the
command channel. -/
theorem monitor_iteration_writes_selection_flag :
    (monitorStep stateFlag ⟨0, 0, 0⟩ 1 0 1).1.selected_image ≠
      stateFlag.selected_image := by
  rw [monitorStep_press1 stateFlag ⟨0, 0, 0⟩ 1 (by norm_num [debounce_time]) rfl]
  decide

/-- C3 (amended): every iteration of the edge-detector loop leaves the
collection, cursor, history and loaded images unchanged, but it does
write the shared selection flag directly: after any iteration with an
accepted press the flag is `none` (having been set to the chosen side
mid-iteration, as the `setSelected` events record), and otherwise it is
untouched. -/
theorem monitor_iteration_shared_writes (s : AppState) (m : MonState)
    (b1 b2 : ℕ) (t : ℚ) :
    (monitorStep s m b1 b2 t).1.image_pairs = s.image_pairs ∧
    (monitorStep s m b1 b2 t).1.current_pair_index = s.current_pair_index ∧
    (monitorStep s m b1 b2 t).1.recent_pairs_history = s.recent_pairs_history ∧
    (monitorStep s m b1 b2 t).1.current_images = s.current_images ∧
    (monitorStep s m b1 b2 t).1.selected_image =
      (if debounce_time ≤ t - m.last_button_press_time ∧
          ((b1 = 1 ∧ m.button1_previous = 0) ∨ (b2 = 1 ∧ m.button2_previous = 0))
       then none else s.selected_image) := by
  unfold monitorStep
  split_ifs with h1 h2 h3 h4 h5 h6 h7 <;>
    (simp_all [button1_branch, button2_branch]; try tauto)

/-- C4 counterexample input: idle state for the simultaneous-press
tick. -/
def stateBoth : AppState := ⟨0, [], [none, none], [], none⟩

/-- C4: counterexample.  In a tick where both channels transition 0→1
with the debounce window elapsed, the trace announces a press on
channel 1 AND a press on channel 2: the second channel is not
suppressed, contradicting the claim that exactly one press is
accepted. -/
theorem simultaneous_press_both_accepted_concrete :
    countPressed 1 (monitorStep stateBoth ⟨0, 0, 0⟩ 1 1 1).2.2 = 1 ∧
    countPressed 2 (monitorStep stateBoth ⟨0, 0, 0⟩ 1 1 1).2.2 = 1 := by
  rw [monitorStep_press_both stateBoth ⟨0, 0, 0⟩ 1 (by norm_num [debounce_time]) rfl rfl]
  constructor <;>
    rw [countPressed_append, countPressed_append] <;>
    simp [countPressed_one_button1, countPressed_one_button2,
      countPressed_two_button1, countPressed_two_button2, countPressed_sleep]

/-- C4 (amended): when both channels transition 0→1 in the same poll
tick with the debounce window elapsed, both presses are accepted in
that tick, channel 1 first — the debounce gate is evaluated once at the
top of the iteration, before either timestamp update, so the shared
timestamp (set to the tick time `t`) does not suppress the second
channel. -/
theorem simultaneous_press_both_accepted (s : AppState) (m : MonState) (t : ℚ)
    (hdeb : debounce_time ≤ t - m.last_button_press_time)
    (hb1 : m.button1_previous = 0) (hb2 : m.button2_previous = 0) :
    countPressed 1 (monitorStep s m 1 1 t).2.2 = 1 ∧
    countPressed 2 (monitorStep s m 1 1 t).2.2 = 1 ∧
    (monitorStep s m 1 1 t).2.1.last_button_press_time = t := by
  rw [monitorStep_press_both s m t hdeb hb1 hb2]
  refine ⟨?_, ?_, rfl⟩ <;>
    rw [countPressed_append, countPressed_append] <;>
    simp [countPressed_one_button1, countPressed_one_button2,
      countPressed_two_button1, countPressed_two_button2, countPressed_sleep]

/-- C4 witness input. -/
def stateBothW : AppState := ⟨0, [("w1", "w2")], [none, none], [], none⟩

/-- C4 witness: the amended theorem applied at a concrete state and
tick time. -/
theorem simultaneous_press_both_accepted_witness :
    debounce_time ≤ (2 : ℚ) - (0 : ℚ) ∧
    (countPressed 1 (monitorStep stateBothW ⟨0, 0, 0⟩ 1 1 2).2.2 = 1 ∧
    countPressed 2 (monitorStep stateBothW ⟨0, 0, 0⟩ 1 1 2).2.2 = 1 ∧
    (monitorStep stateBothW ⟨0, 0, 0⟩ 1 1 2).2.1.last_button_press_time = 2) :=
  ⟨by norm_num [debounce_time],
   simultaneous_press_both_accepted stateBothW ⟨0, 0, 0⟩ 2
     (by norm_num [debounce_time]) rfl rfl⟩

/-- C5: single-channel debounce.  Starting from the initial monitor
state, a sample sequence with a 0→1 transition on channel 1 at `t1`
(outside the initial debounce window), a release, and a second 0→1
transition at `t2` yields exactly one accepted press when
`t2 - t1 < debounce_time` and exactly two when
`t2 - t1 ≥ debounce_time`. -/
theorem debounce_two_transitions (s : AppState) (t1 tm t2 : ℚ)
    (h1 : debounce_time ≤ t1) :
    (t2 - t1 < debounce_time →
      countPressed 1 (monitorRun s ⟨0, 0, 0⟩ [(1, 0, t1), (0, 0, tm), (1, 0, t2)]).2.2 = 1) ∧
    (debounce_time ≤ t2 - t1 →
      countPressed 1 (monitorRun s ⟨0, 0, 0⟩ [(1, 0, t1), (0, 0, tm), (1, 0, t2)]).2.2 = 2) := by
  have e1 : monitorStep s ⟨0, 0, 0⟩ 1 0 t1 =
      ((button1_branch s).1, ⟨1, 0, t1⟩,
        (button1_branch s).2 ++ [Ev.sleepFor (1 / 100)]) :=
    monitorStep_press1 s ⟨0, 0, 0⟩ t1 (by simpa using h1) rfl
  have e2 : monitorStep (button1_branch s).1 ⟨1, 0, t1⟩ 0 0 tm =
      ((button1_branch s).1, ⟨0, 0, t1⟩, [Ev.sleepFor (1 / 100)]) :=
    monitorStep_idle (button1_branch s).1 ⟨1, 0, t1⟩ tm
  constructor
  · intro hgap
    have e3 : monitorStep (button1_branch s).1 ⟨0, 0, t1⟩ 1 0 t2 =
        ((button1_branch s).1, ⟨1, 0, t1⟩, [Ev.sleepFor (1 / 100)]) :=
      monitorStep_suppressed (button1_branch s).1 ⟨0, 0, t1⟩ 1 0 t2
        (by simpa using not_le.mpr hgap)
    simp only [monitorRun, e1, e2, e3]
    rw [List.append_nil, countPressed_append, countPressed_append,
      countPressed_append, countPressed_one_button1, countPressed_sleep]
  · intro hgap
    have e3 : monitorStep (button1_branch s).1 ⟨0, 0, t1⟩ 1 0 t2 =
        ((button1_branch (button1_branch s).1).1, ⟨1, 0, t2⟩,
          (button1_branch (button1_branch s).1).2 ++ [Ev.sleepFor (1 / 100)]) :=
      monitorStep_press1 (button1_branch s).1 ⟨0, 0, t1⟩ t2 (by simpa using hgap) rfl
    simp only [monitorRun, e1, e2, e3]
    rw [List.append_nil, countPressed_append, countPressed_append,
      countPressed_append, countPressed_append, countPressed_one_button1,
      countPressed_one_button1, countPressed_sleep]

/-- C5 witness input state. -/
def stateDeb : AppState := ⟨0, [("d1", "d2")], [none, none], [], none⟩

/-- C5 witness: the theorem applied at concrete times 1, 2, 3 — the
second transition at gap 2 ≥ debounce time yields two presses. -/
theorem debounce_two_transitions_witness :
    debounce_time ≤ (1 : ℚ) ∧
    (((3 : ℚ) - 1 < debounce_time →
      countPressed 1 (monitorRun stateDeb ⟨0, 0, 0⟩
        [(1, 0, 1), (0, 0, 2), (1, 0, 3)]).2.2 = 1) ∧
    (debounce_time ≤ (3 : ℚ) - 1 →
      countPressed 1 (monitorRun stateDeb ⟨0, 0, 0⟩
        [(1, 0, 1), (0, 0, 2), (1, 0, 3)]).2.2 = 2)) :=
  ⟨by norm_num [debounce_time],
   debounce_two_transitions stateDeb 1 2 3 (by norm_num [debounce_time])⟩

/-- C8: vote-right scenario.  In a state whose active item is the pair
with id `"00384"`, one accepted press of the vote-right input (button
1) produces exactly this event trace: press announced, selection flag
set to the right image, redraw enqueued, one single
`send_vote("00384", 1)` call, the 0.5 s settle sleep, the forced
advance (`"next"`), the flag cleared, a final redraw enqueued — and the
shared selection flag ends the iteration cleared. -/
theorem vote_right_scenario (s : AppState) (m : MonState) (t : ℚ)
    (hdeb : debounce_time ≤ t - m.last_button_press_time)
    (hb : m.button1_previous = 0)
    (hne : s.image_pairs ≠ [])
    (hlt : s.current_pair_index < s.image_pairs.length)
    (hpair : s.image_pairs.getD s.current_pair_index ("", "") =
      ("images/00384_1.jpg", "images/00384_2.jpg")) :
    (monitorStep s m 1 0 t).2.2 =
      [Ev.printPressed 1, Ev.setSelected (some 1), Ev.putDisplay,
       Ev.sendVote "00384" 1, Ev.sleepFor (1 / 2), Ev.putNext,
       Ev.setSelected none, Ev.putDisplay, Ev.sleepFor (1 / 100)] ∧
    (monitorStep s m 1 0 t).1.selected_image = none := by
  rw [monitorStep_press1 s m t hdeb hb]
  have hrv : record_vote s 1 = [Ev.sendVote "00384" 1] := by
    unfold record_vote
    rw [if_pos ⟨hne, hlt⟩, hpair]
    rfl
  constructor
  · have h : (button1_branch s).2 =
        [Ev.printPressed 1, Ev.setSelected (some 1), Ev.putDisplay] ++ record_vote s 1 ++
        [Ev.sleepFor (1 / 2), Ev.putNext, Ev.setSelected none, Ev.putDisplay] := rfl
    rw [h, hrv]
    rfl
  · rfl

/-- C8 witness input: the collection whose only pair is `00384`. -/
def statePair : AppState :=
  ⟨0, [("images/00384_1.jpg", "images/00384_2.jpg")], [none, none], [], none⟩

/-- C8 witness: the theorem applied at the concrete `00384` state. -/
theorem vote_right_scenario_witness :
    debounce_time ≤ (1 : ℚ) - (0 : ℚ) ∧
    ((monitorStep statePair ⟨0, 0, 0⟩ 1 0 1).2.2 =
      [Ev.printPressed 1, Ev.setSelected (some 1), Ev.putDisplay,
       Ev.sendVote "00384" 1, Ev.sleepFor (1 / 2), Ev.putNext,
       Ev.setSelected none, Ev.putDisplay, Ev.sleepFor (1 / 100)] ∧
    (monitorStep statePair ⟨0, 0, 0⟩ 1 0 1).1.selected_image = none) :=
  ⟨by norm_num [debounce_time],
   vote_right_scenario statePair ⟨0, 0, 0⟩ 1 (by norm_num [debounce_time]) rfl
     (by decide) (by decide) rfl⟩
